import Mathlib

/-!
Verification development for the ZeraCorp V1.0 autonomous decision core
(src/core/ai_agent.py, src/services/cost_management.py, src/main.py).

The embedding is shallow: Python dictionaries become association lists,
Python numbers become Int / Rat, and the dynamic evaluation of rule
condition strings is modelled by a deep-embedded expression language
whose evaluator mirrors the call `eval` on the condition with an empty
globals dictionary and the context as locals:
name lookup first consults the locals mapping (the decision context) and
then falls through to the host builtins, exactly as CPython injects
`__builtins__` into an empty globals dictionary. A failing evaluation
(for example a NameError or a TypeError) is modelled by `Option.none`.
-/

namespace ZeraCorp

/-- Runtime values a rule condition can produce: Python ints, strings,
booleans, and host builtin objects reachable through the builtins
fallback of `eval`. -/
inductive PyVal where
  | intV : Int → PyVal
  | strV : String → PyVal
  | boolV : Bool → PyVal
  | builtinV : String → PyVal
deriving DecidableEq

/-- Python truthiness of a value, as used by `if eval(...)`. -/
def truthy : PyVal → Bool
  | .intV n => decide (n ≠ 0)
  | .strV s => decide (s ≠ "")
  | .boolV b => b
  | .builtinV _ => true

/-- Numeric view of a value: Python treats booleans as the integers 0 and 1
in arithmetic and comparisons. -/
def asNum : PyVal → Option Int
  | .intV n => some n
  | .boolV b => some (if b then 1 else 0)
  | _ => none

/-- The comparison operators of the condition grammar. -/
inductive PyCmp where
  | lt | le | gt | ge
deriving DecidableEq

def intCmp : PyCmp → Int → Int → Bool
  | .lt, a, b => decide (a < b)
  | .le, a, b => decide (a ≤ b)
  | .gt, a, b => decide (b < a)
  | .ge, a, b => decide (b ≤ a)

def strCmp : PyCmp → String → String → Bool
  | .lt, a, b => decide (a < b)
  | .le, a, b => decide (a ≤ b)
  | .gt, a, b => decide (b < a)
  | .ge, a, b => decide (b ≤ a)

/-- Ordered comparison of two values. Numbers compare numerically, strings
lexicographically; a mixed comparison raises TypeError in Python, which the
model renders as `none`. -/
def pyCompare (op : PyCmp) (a b : PyVal) : Option PyVal :=
  match asNum a, asNum b with
  | some x, some y => some (.boolV (intCmp op x y))
  | _, _ =>
    match a, b with
    | .strV s, .strV t => some (.boolV (strCmp op s t))
    | _, _ => none

/-- Equality of two values. Python equality across unrelated types returns
False rather than raising, and `True == 1` holds. -/
def pyEq (a b : PyVal) : Bool :=
  match asNum a, asNum b with
  | some x, some y => decide (x = y)
  | _, _ => decide (a = b)

/-- Python addition restricted to the grammar of conditions: numeric
addition and string concatenation; anything else raises (is `none`). -/
def pyAdd (a b : PyVal) : Option PyVal :=
  match asNum a, asNum b with
  | some x, some y => some (.intV (x + y))
  | _, _ =>
    match a, b with
    | .strV s, .strV t => some (.strV (s ++ t))
    | _, _ => none

def pySub (a b : PyVal) : Option PyVal :=
  match asNum a, asNum b with
  | some x, some y => some (.intV (x - y))
  | _, _ => none

def pyMul (a b : PyVal) : Option PyVal :=
  match asNum a, asNum b with
  | some x, some y => some (.intV (x * y))
  | _, _ => none

/-- Deep embedding of the expressions occurring in externally editable rule
condition strings: names, literals, comparisons, boolean combinators and
arithmetic. -/
inductive PyExpr where
  | name : String → PyExpr
  | intLit : Int → PyExpr
  | strLit : String → PyExpr
  | boolLit : Bool → PyExpr
  | cmp : PyCmp → PyExpr → PyExpr → PyExpr
  | eqE : PyExpr → PyExpr → PyExpr
  | neE : PyExpr → PyExpr → PyExpr
  | andE : PyExpr → PyExpr → PyExpr
  | orE : PyExpr → PyExpr → PyExpr
  | notE : PyExpr → PyExpr
  | addE : PyExpr → PyExpr → PyExpr
  | subE : PyExpr → PyExpr → PyExpr
  | mulE : PyExpr → PyExpr → PyExpr
deriving DecidableEq

/-- Representative entries of the CPython builtins table that
`eval(cond, \x7b\x7d, context)` exposes to condition strings, because an
empty globals dictionary has the real `__builtins__` injected into it. -/
def pyBuiltins : List (String × PyVal) :=
  [("__import__", .builtinV "__import__"),
   ("open", .builtinV "open"),
   ("eval", .builtinV "eval"),
   ("exec", .builtinV "exec"),
   ("getattr", .builtinV "getattr"),
   ("abs", .builtinV "abs"),
   ("min", .builtinV "min"),
   ("max", .builtinV "max")]

/-- Name resolution of `eval(cond, \x7b\x7d, context)`: the locals mapping
(the decision context) first, then the host builtins. -/
def lookupName (ctx : List (String × PyVal)) (s : String) : Option PyVal :=
  match ctx.lookup s with
  | some v => some v
  | none => pyBuiltins.lookup s

/-- Evaluator modelling the source call `eval(rule["condition"], \x7b\x7d,
context)` on a condition expression: short-circuit `and` / `or` return an
operand value as in Python, and any raised exception is `none`. -/
def evalPy (ctx : List (String × PyVal)) : PyExpr → Option PyVal
  | .name s => lookupName ctx s
  | .intLit n => some (.intV n)
  | .strLit s => some (.strV s)
  | .boolLit b => some (.boolV b)
  | .cmp op a b => do pyCompare op (← evalPy ctx a) (← evalPy ctx b)
  | .eqE a b => do pure (.boolV (pyEq (← evalPy ctx a) (← evalPy ctx b)))
  | .neE a b => do pure (.boolV (!pyEq (← evalPy ctx a) (← evalPy ctx b)))
  | .andE a b => do
      let va ← evalPy ctx a
      if truthy va then evalPy ctx b else pure va
  | .orE a b => do
      let va ← evalPy ctx a
      if truthy va then pure va else evalPy ctx b
  | .notE a => do pure (.boolV (!truthy (← evalPy ctx a)))
  | .addE a b => do pyAdd (← evalPy ctx a) (← evalPy ctx b)
  | .subE a b => do pySub (← evalPy ctx a) (← evalPy ctx b)
  | .mulE a b => do pyMul (← evalPy ctx a) (← evalPy ctx b)

/-- Modelled from the spec: the sandboxed whitelisted expression evaluator
the design document prescribes, bound only to the enumerated context
variables — identical to `evalPy` except that name resolution never falls
through to host builtins. This definition follows the words of the spec
and exists only to be compared with the evaluator embedded from the
source. -/
def sandboxEvalPy (ctx : List (String × PyVal)) : PyExpr → Option PyVal
  | .name s => ctx.lookup s
  | .intLit n => some (.intV n)
  | .strLit s => some (.strV s)
  | .boolLit b => some (.boolV b)
  | .cmp op a b => do pyCompare op (← sandboxEvalPy ctx a) (← sandboxEvalPy ctx b)
  | .eqE a b => do pure (.boolV (pyEq (← sandboxEvalPy ctx a) (← sandboxEvalPy ctx b)))
  | .neE a b => do pure (.boolV (!pyEq (← sandboxEvalPy ctx a) (← sandboxEvalPy ctx b)))
  | .andE a b => do
      let va ← sandboxEvalPy ctx a
      if truthy va then sandboxEvalPy ctx b else pure va
  | .orE a b => do
      let va ← sandboxEvalPy ctx a
      if truthy va then pure va else sandboxEvalPy ctx b
  | .notE a => do pure (.boolV (!truthy (← sandboxEvalPy ctx a)))
  | .addE a b => do pyAdd (← sandboxEvalPy ctx a) (← sandboxEvalPy ctx b)
  | .subE a b => do pySub (← sandboxEvalPy ctx a) (← sandboxEvalPy ctx b)
  | .mulE a b => do pyMul (← sandboxEvalPy ctx a) (← sandboxEvalPy ctx b)

/-- Free names occurring in a condition expression. -/
def freeNames : PyExpr → List String
  | .name s => [s]
  | .intLit _ => []
  | .strLit _ => []
  | .boolLit _ => []
  | .cmp _ a b => freeNames a ++ freeNames b
  | .eqE a b => freeNames a ++ freeNames b
  | .neE a b => freeNames a ++ freeNames b
  | .andE a b => freeNames a ++ freeNames b
  | .orE a b => freeNames a ++ freeNames b
  | .notE a => freeNames a
  | .addE a b => freeNames a ++ freeNames b
  | .subE a b => freeNames a ++ freeNames b
  | .mulE a b => freeNames a ++ freeNames b

/-- The context variable names enumerated by the design document: the raw
sensor fields of the validated schema plus the four derived fields set in
`decide_action`. -/
def enumeratedContextVars : List String :=
  ["field_id", "moisture", "temp", "nutrient_level", "pump_pressure",
   "wind_speed", "solar_radiation", "prediction", "system_load_cpu",
   "geographical_zone", "safety_lock"]

/-- A heuristic rule of the knowledge base, as consumed by
`AIActionDecider.decide_action`: the JSON object
`\x7bid, condition, action, priority, log\x7d` with the condition string
already parsed into the expression embedding. -/
structure Rule where
  id : String
  condition : PyExpr
  action : String
  priority : ℚ
  log : String
deriving DecidableEq

/-- Modelled from the spec: `HeuristicEngine.get_confidence` of
src/ai/heuristic_engine.py, which is not under src/ — per the design
document it returns the stored per (rule id, subject id) confidence or the
default 1.0 if absent, and never fails. -/
def get_confidence (store : List ((String × PyVal) × ℚ))
    (ruleId : String) (fieldId : PyVal) : ℚ :=
  (store.lookup (ruleId, fieldId)).getD 1

/-- Dictionary update `d[k] = v` on an association-list model of a Python
dictionary: the new binding replaces any previous binding of the key. -/
def setItem (ctx : List (String × PyVal)) (k : String) (v : PyVal) :
    List (String × PyVal) :=
  (k, v) :: ctx.filter (fun p => !(p.1 == k))

/-- The per rule evaluation context of `decide_action`: a copy of the
sensor data extended with the four derived fields, in the order the source
assigns them. -/
def buildContext (sensor : List (String × PyVal)) (prediction : String)
    (cpu : Int) (lock : Bool) : List (String × PyVal) :=
  setItem
    (setItem
      (setItem
        (setItem sensor "prediction" (.strV prediction))
        "system_load_cpu" (.intV cpu))
      "geographical_zone" (.strV "Kenya_Highlands"))
    "safety_lock" (.boolV lock)

/-- Rounding to the nearest integer with ties to even, the rounding rule of
the `:.2f` format specifier used for the confidence in the reason string. -/
def roundHalfEven (q : ℚ) : ℤ :=
  let f := q.floor
  let r := q - (f : ℚ)
  if r < 1/2 then f
  else if 1/2 < r then f + 1
  else if f % 2 = 0 then f else f + 1

/-- Two-digit decimal rendering of a remainder in `[0, 100)`. -/
def twoDigits (n : ℤ) : String :=
  if n < 10 then "0" ++ toString n else toString n

/-- Model of the f-string fragment `\x7bconfidence:.2f\x7d`: the confidence
rendered with two decimal places. -/
def formatConf (q : ℚ) : String :=
  let n := roundHalfEven (q * 100)
  if n < 0 then "-" ++ toString ((-n) / 100) ++ "." ++ twoDigits ((-n) % 100)
  else toString (n / 100) ++ "." ++ twoDigits (n % 100)

/-- The loop state of `decide_action`: the variables `best_action`,
`highest_score` and `selected_reason`. -/
structure DecideState where
  best_action : String
  highest_score : ℚ
  selected_reason : String
deriving DecidableEq

/-- The initial loop state of `decide_action`. -/
def initState : DecideState :=
  { best_action := "ACTION: MONITOR_QUIETLY"
    highest_score := -1
    selected_reason := "Default state." }

/-- One iteration of the rule loop of `decide_action`, for one rule. A
failed condition evaluation, or a KeyError from `sensor_data["field_id"]`
after a match, is caught by the `except` clause and leaves the loop state
unchanged. -/
def ruleStep (store : List ((String × PyVal) × ℚ))
    (ctx : List (String × PyVal)) (fid? : Option PyVal)
    (s : DecideState) (r : Rule) : DecideState :=
  match evalPy ctx r.condition with
  | none => s
  | some v =>
    if truthy v then
      match fid? with
      | none => s
      | some fid =>
        let confidence := get_confidence store r.id fid
        let score := r.priority * confidence
        if s.highest_score < score then
          { best_action := r.action
            highest_score := score
            selected_reason := r.log ++ " (Conf: " ++ formatConf confidence ++ ")" }
        else s
    else s

/-- The complete rule loop of `decide_action` over the catalog in order. -/
def selectRule (store : List ((String × PyVal) × ℚ)) (rules : List Rule)
    (ctx : List (String × PyVal)) (fid? : Option PyVal) : DecideState :=
  rules.foldl (ruleStep store ctx fid?) initState

/-- An entry of the `tool_definitions` table of the knowledge base; the
`cost` field of the JSON object may be absent. -/
structure ToolDef where
  cost : Option Int
deriving DecidableEq

/-- Fuel-indexed worker for `pyReplace`; the fuel is the length of the
subject, which bounds the number of steps. -/
def pyReplaceAux (pat rep : List Char) : Nat → List Char → List Char
  | 0, s => s
  | _ + 1, [] => []
  | n + 1, c :: rest =>
    if pat.isPrefixOf (c :: rest) then
      rep ++ pyReplaceAux pat rep n ((c :: rest).drop pat.length)
    else
      c :: pyReplaceAux pat rep n rest

/-- Model of the Python call `s.replace(pat, rep)` for a non-empty
pattern: every non-overlapping occurrence of `pat`, scanning left to
right, is replaced by `rep`. -/
def pyReplace (s pat rep : String) : String :=
  ⟨pyReplaceAux pat.data rep.data s.data.length s.data⟩

/-- `AIActionDecider._get_tool_cost`: strip the `ACTION: ` prefix and look
the result up in the tool definitions, defaulting to cost 0 when either
the entry or its cost field is missing. -/
def get_tool_cost (tool_defs : List (String × ToolDef))
    (action_name : String) : Int :=
  let clean_name := pyReplace action_name "ACTION: " ""
  match tool_defs.lookup clean_name with
  | none => 0
  | some td => td.cost.getD 0

/-- `CostManager.is_within_budget`: false when the proposed cost strictly
exceeds the configured limit, true otherwise. -/
def is_within_budget (cost_limit_kes : Int) (proposed_cost : Int) : Bool :=
  if proposed_cost > cost_limit_kes then false else true

/-- The budget check at the end of `decide_action`: an over-budget action
is overridden to the monitor default and the reason is replaced by the
budget-constraint message. -/
def budgetCheck (cost_limit : Int) (tool_defs : List (String × ToolDef))
    (p : String × String) : String × String :=
  if is_within_budget cost_limit (get_tool_cost tool_defs p.1) then p
  else ("ACTION: MONITOR_QUIETLY", "Budget Constraint Override.")

/-- The action and reason computed by `AIActionDecider.decide_action`:
rule loop, then budget check. The collaborator readings
(`monitor.get_current_cpu()` and `config.is_safety_lock_active()`) enter
as the `cpu` and `lock` arguments. -/
def decideCore (store : List ((String × PyVal) × ℚ)) (rules : List Rule)
    (tool_defs : List (String × ToolDef)) (cost_limit : Int)
    (prediction : String) (sensor : List (String × PyVal))
    (cpu : Int) (lock : Bool) : String × String :=
  let ctx := buildContext sensor prediction cpu lock
  let fid? := sensor.lookup "field_id"
  let s := selectRule store rules ctx fid?
  budgetCheck cost_limit tool_defs (s.best_action, s.selected_reason)

/-- The dictionary returned by `decide_action`, as an association list:
`\x7b"action": best_action, "reason": selected_reason\x7d`. -/
def decide_action (store : List ((String × PyVal) × ℚ)) (rules : List Rule)
    (tool_defs : List (String × ToolDef)) (cost_limit : Int)
    (prediction : String) (sensor : List (String × PyVal))
    (cpu : Int) (lock : Bool) : List (String × String) :=
  let p := decideCore store rules tool_defs cost_limit prediction sensor cpu lock
  [("action", p.1), ("reason", p.2)]

/-- Whether a rule matches: its condition evaluates without error to a
truthy value in the given context. -/
def ruleMatches (ctx : List (String × PyVal)) (r : Rule) : Bool :=
  match evalPy ctx r.condition with
  | none => false
  | some v => truthy v

/-- Whether processing a rule raises inside the `try` block of the rule
loop: the condition evaluation fails, or the rule matches and the
subsequent scoring raises a KeyError because `field_id` is absent from the
sensor data. -/
def ruleEvalFails (ctx : List (String × PyVal)) (fid? : Option PyVal)
    (r : Rule) : Bool :=
  match evalPy ctx r.condition with
  | none => true
  | some v => truthy v && fid?.isNone

/-- The global `ai_agent_status` dictionary. -/
structure AgentStatus where
  last_action : String
  timestamp : ℚ
  state : String
  uptime : Int
  self_modification_attempts : Int
deriving DecidableEq

/-- The write `decide_action` performs on the global status under the
status lock: `last_action` and `timestamp`. -/
def decideStatusUpdate (best_action : String) (now : ℚ)
    (st : AgentStatus) : AgentStatus :=
  { st with last_action := best_action, timestamp := now }

/-- The write each iteration of `run_agent_loop` performs on the global
status under the status lock: `uptime` and `state`. -/
def loopTickStatusUpdate (uptime : Int) (st : AgentStatus) : AgentStatus :=
  { st with uptime := uptime, state := "MONITORING" }

/-- The write `_handle_autonomy_conflict` (called from `run_agent_loop`
when CPU stress is detected) performs on the global status under the
status lock: it sets `last_action` to the override marker. -/
def handleConflictStatusUpdate (st : AgentStatus) : AgentStatus :=
  { st with last_action := "CRITICAL_POLICY_OVERRIDE" }

/-- The write the success path of `_attempt_code_rewrite` performs on the
global status under the status lock: it increments the counter of
self-modification attempts. -/
def codeRewriteStatusUpdate (st : AgentStatus) : AgentStatus :=
  { st with self_modification_attempts := st.self_modification_attempts + 1 }

/-- The safety-lock part of the shared configuration. -/
structure AgentConfig where
  safety_lock : Bool
deriving DecidableEq

/-- Modelled from the spec: `ConfigurationManager.set_safety_lock_status`
of src/core/config.py, which is not under src/ — per the design document
the SafetyLock is a single process-wide boolean flag, so the setter writes
the given value to it. -/
def set_safety_lock_status (c : AgentConfig) (b : Bool) : AgentConfig :=
  { c with safety_lock := b }

/-- The safety-lock write of `AIActionDecider._handle_autonomy_conflict`
(src/core/ai_agent.py): `self.config.set_safety_lock_status(False)`. -/
def handle_autonomy_conflict_lock (c : AgentConfig) : AgentConfig :=
  set_safety_lock_status c false

/-- The safety-lock write of
`AutonomousCoreEngine.resolve_autonomy_conflict` (src/main.py):
`self.config.set_safety_lock_status(True)`. -/
def resolve_autonomy_conflict_lock (c : AgentConfig) : AgentConfig :=
  set_safety_lock_status c true

/-- One record of the heuristic memory dictionary: the optional fields read
with `stats.get` in `_perform_self_optimization`. -/
structure HeurStats where
  confidence : Option ℚ
  successes : Option Int
  failures : Option Int
deriving DecidableEq

/-- The read `stats.get` of the confidence field, defaulting to 1.0. -/
def statConfidence (s : HeurStats) : ℚ := s.confidence.getD 1

/-- The sum of the successes and failures fields, each read with
`stats.get` defaulting to 0. -/
def totalInteractions (s : HeurStats) : Int :=
  s.successes.getD 0 + s.failures.getD 0

/-- The decay factor of the maintenance pass. -/
def decayFactor : ℚ := 995/1000

/-- The decay applied to one record: the confidence field is overwritten
with the old confidence times 0.995. -/
def decayStats (s : HeurStats) : HeurStats :=
  { s with confidence := some (statConfidence s * decayFactor) }

/-- The pruning test of the maintenance pass, on an already decayed record:
`new_conf < 0.2 and total_interactions > 10`. -/
def pruneCond (s : HeurStats) : Bool :=
  decide (statConfidence s < 1/5) && decide (totalInteractions s > 10)

/-- `AIActionDecider._perform_self_optimization` on the heuristic memory:
decay every record, then delete exactly the records whose decayed
confidence is below the floor and whose interaction total exceeds the
minimum. The key type is abstract because the pass never inspects keys. -/
def perform_self_optimization {κ : Type} (memory : List (κ × HeurStats)) :
    List (κ × HeurStats) :=
  let decayed := memory.map (fun kv => (kv.1, decayStats kv.2))
  decayed.filter (fun kv => !pruneCond kv.2)

/-- A fixed sensor reading used for the concrete scenarios, matching the
validated schema of `main.py` (abridged to the fields the scenarios
read). -/
def demoSensor : List (String × PyVal) :=
  [("field_id", .strV "field_1"), ("moisture", .intV 20), ("temp", .intV 22)]

/-- The rule of scenario 1 and 2 of the design document:
`\x7bid: "r1", condition: "moisture<30", action: "PUMP_WATER",
priority: 10\x7d`. -/
def rulePump : Rule :=
  { id := "r1", condition := .cmp .lt (.name "moisture") (.intLit 30),
    action := "ACTION: PUMP_WATER", priority := 10, log := "Low moisture" }

/-- A second rule with the same condition and priority as `rulePump`, used
for the tie-break scenario. -/
def ruleDrain : Rule :=
  { id := "r2", condition := .cmp .lt (.name "moisture") (.intLit 30),
    action := "ACTION: OPEN_VALVE", priority := 10, log := "Valve rule" }

/-! Helper lemmas about the evaluator and the rule loop. -/

theorem evalPy_agrees_with_sandbox (e : PyExpr) :
    ∀ ctx : List (String × PyVal),
      (∀ n ∈ freeNames e, (ctx.lookup n).isSome = true) →
      evalPy ctx e = sandboxEvalPy ctx e := by
  induction e with
  | name s =>
    intro ctx h
    have hs := h s (by simp [freeNames])
    simp only [evalPy, sandboxEvalPy, lookupName]
    cases hc : ctx.lookup s with
    | none => rw [hc] at hs; simp at hs
    | some v => rfl
  | intLit n => intro ctx _; rfl
  | strLit s => intro ctx _; rfl
  | boolLit b => intro ctx _; rfl
  | cmp op a b iha ihb =>
    intro ctx h
    have ha := iha ctx (fun n hn => h n (by simp [freeNames]; exact Or.inl hn))
    have hb := ihb ctx (fun n hn => h n (by simp [freeNames]; exact Or.inr hn))
    simp [evalPy, sandboxEvalPy, ha, hb]
  | eqE a b iha ihb =>
    intro ctx h
    have ha := iha ctx (fun n hn => h n (by simp [freeNames]; exact Or.inl hn))
    have hb := ihb ctx (fun n hn => h n (by simp [freeNames]; exact Or.inr hn))
    simp [evalPy, sandboxEvalPy, ha, hb]
  | neE a b iha ihb =>
    intro ctx h
    have ha := iha ctx (fun n hn => h n (by simp [freeNames]; exact Or.inl hn))
    have hb := ihb ctx (fun n hn => h n (by simp [freeNames]; exact Or.inr hn))
    simp [evalPy, sandboxEvalPy, ha, hb]
  | andE a b iha ihb =>
    intro ctx h
    have ha := iha ctx (fun n hn => h n (by simp [freeNames]; exact Or.inl hn))
    have hb := ihb ctx (fun n hn => h n (by simp [freeNames]; exact Or.inr hn))
    simp [evalPy, sandboxEvalPy, ha, hb]
  | orE a b iha ihb =>
    intro ctx h
    have ha := iha ctx (fun n hn => h n (by simp [freeNames]; exact Or.inl hn))
    have hb := ihb ctx (fun n hn => h n (by simp [freeNames]; exact Or.inr hn))
    simp [evalPy, sandboxEvalPy, ha, hb]
  | notE a iha =>
    intro ctx h
    have ha := iha ctx (fun n hn => h n (by simp [freeNames]; exact hn))
    simp [evalPy, sandboxEvalPy, ha]
  | addE a b iha ihb =>
    intro ctx h
    have ha := iha ctx (fun n hn => h n (by simp [freeNames]; exact Or.inl hn))
    have hb := ihb ctx (fun n hn => h n (by simp [freeNames]; exact Or.inr hn))
    simp [evalPy, sandboxEvalPy, ha, hb]
  | subE a b iha ihb =>
    intro ctx h
    have ha := iha ctx (fun n hn => h n (by simp [freeNames]; exact Or.inl hn))
    have hb := ihb ctx (fun n hn => h n (by simp [freeNames]; exact Or.inr hn))
    simp [evalPy, sandboxEvalPy, ha, hb]
  | mulE a b iha ihb =>
    intro ctx h
    have ha := iha ctx (fun n hn => h n (by simp [freeNames]; exact Or.inl hn))
    have hb := ihb ctx (fun n hn => h n (by simp [freeNames]; exact Or.inr hn))
    simp [evalPy, sandboxEvalPy, ha, hb]

theorem ruleStep_of_fails {store ctx fid?} {r : Rule} (s : DecideState)
    (h : ruleEvalFails ctx fid? r = true) :
    ruleStep store ctx fid? s r = s := by
  unfold ruleEvalFails at h
  cases he : evalPy ctx r.condition with
  | none => simp [ruleStep, he]
  | some v =>
    rw [he] at h
    simp only [Bool.and_eq_true, Option.isNone_iff_eq_none] at h
    rcases h with ⟨ht, hf⟩
    simp [ruleStep, he, ht, hf]

theorem ruleStep_of_no_match {store ctx fid?} {r : Rule} (s : DecideState)
    (h : ruleMatches ctx r = false) :
    ruleStep store ctx fid? s r = s := by
  unfold ruleMatches at h
  cases he : evalPy ctx r.condition with
  | none => simp [ruleStep, he]
  | some v =>
    rw [he] at h
    simp only [] at h
    simp [ruleStep, he, h]

theorem ruleStep_of_no_beat {store ctx} {r : Rule} {fid : PyVal}
    (s : DecideState)
    (h : ¬ s.highest_score < r.priority * get_confidence store r.id fid) :
    ruleStep store ctx (some fid) s r = s := by
  cases he : evalPy ctx r.condition with
  | none => simp [ruleStep, he]
  | some v =>
    cases ht : truthy v with
    | false => simp [ruleStep, he, ht]
    | true => simp [ruleStep, he, ht, h]

theorem ruleStep_of_beat {store ctx} {r : Rule} {fid : PyVal} {v : PyVal}
    (s : DecideState)
    (he : evalPy ctx r.condition = some v) (ht : truthy v = true)
    (h : s.highest_score < r.priority * get_confidence store r.id fid) :
    ruleStep store ctx (some fid) s r =
      { best_action := r.action
        highest_score := r.priority * get_confidence store r.id fid
        selected_reason :=
          r.log ++ " (Conf: " ++ formatConf (get_confidence store r.id fid) ++ ")" } := by
  simp [ruleStep, he, ht, h]

theorem ruleStep_highest_mono (store ctx fid?) (s : DecideState) (r : Rule) :
    s.highest_score ≤ (ruleStep store ctx fid? s r).highest_score := by
  cases he : evalPy ctx r.condition with
  | none => simp [ruleStep, he]
  | some v =>
    cases ht : truthy v with
    | false => simp [ruleStep, he, ht]
    | true =>
      cases hf : fid? with
      | none => simp [ruleStep, he, ht]
      | some fid =>
        by_cases h : s.highest_score < r.priority * get_confidence store r.id fid
        · simp [ruleStep, he, ht, h]; exact le_of_lt h
        · simp [ruleStep, he, ht, h]

theorem foldl_ruleStep_highest_mono (store ctx fid?) (l : List Rule) :
    ∀ s : DecideState,
      s.highest_score ≤ (List.foldl (ruleStep store ctx fid?) s l).highest_score := by
  induction l with
  | nil => intro s; exact le_refl _
  | cons r rest ih =>
    intro s
    calc s.highest_score ≤ (ruleStep store ctx fid? s r).highest_score :=
          ruleStep_highest_mono store ctx fid? s r
      _ ≤ _ := ih (ruleStep store ctx fid? s r)

theorem foldl_ruleStep_of_no_match (store ctx fid?) (l : List Rule)
    (h : ∀ r ∈ l, ruleMatches ctx r = false) :
    ∀ s : DecideState, List.foldl (ruleStep store ctx fid?) s l = s := by
  induction l with
  | nil => intro s; rfl
  | cons r rest ih =>
    intro s
    have hr : ruleMatches ctx r = false := h r (List.mem_cons_self r rest)
    rw [List.foldl_cons, ruleStep_of_no_match s hr]
    exact ih (fun x hx => h x (List.mem_cons_of_mem r hx)) s

theorem foldl_ruleStep_filter_fails (store ctx fid?) (l : List Rule) :
    ∀ s : DecideState,
      List.foldl (ruleStep store ctx fid?) s l =
        List.foldl (ruleStep store ctx fid?) s
          (l.filter (fun r => !ruleEvalFails ctx fid? r)) := by
  induction l with
  | nil => intro s; rfl
  | cons r rest ih =>
    intro s
    rw [List.foldl_cons]
    cases hf : ruleEvalFails ctx fid? r with
    | true =>
      rw [ruleStep_of_fails s hf]
      have : (r :: rest).filter (fun x => !ruleEvalFails ctx fid? x) =
          rest.filter (fun x => !ruleEvalFails ctx fid? x) := by
        simp [List.filter, hf]
      rw [this]
      exact ih s
    | false =>
      have : (r :: rest).filter (fun x => !ruleEvalFails ctx fid? x) =
          r :: rest.filter (fun x => !ruleEvalFails ctx fid? x) := by
        simp [List.filter, hf]
      rw [this, List.foldl_cons]
      exact ih (ruleStep store ctx fid? s r)

theorem ruleMatches_elim {ctx} {r : Rule} (h : ruleMatches ctx r = true) :
    ∃ v, evalPy ctx r.condition = some v ∧ truthy v = true := by
  unfold ruleMatches at h
  cases he : evalPy ctx r.condition with
  | none => rw [he] at h; simp at h
  | some v =>
    rw [he] at h
    simp only [] at h
    exact ⟨v, rfl, h⟩

/-! Claims. -/

/-- Claim C1, counterexample to the claim as stated: the source evaluates
the externally editable condition string with the general-purpose host
evaluator `eval(rule["condition"], \x7b\x7d, context)`. A condition that is
just the name `__import__` — which is not one of the enumerated context
variable names — evaluates successfully to a host builtin (CPython injects
the builtins into the empty globals dictionary), while the sandboxed
evaluator prescribed by the spec refuses it. -/
theorem condition_eval_reaches_host_builtin :
    evalPy (buildContext demoSensor "HEALTHY" 20 true) (.name "__import__")
        = some (.builtinV "__import__") ∧
    "__import__" ∉ enumeratedContextVars ∧
    sandboxEvalPy (buildContext demoSensor "HEALTHY" 20 true) (.name "__import__")
        = none := by
  refine ⟨by decide, by decide, by decide⟩

/-- Claim C1, amended: the decision engine evaluates rule conditions with
the host evaluator; on conditions all of whose free names are bound in the
decision context this coincides with the sandboxed whitelisted evaluator,
but a name outside the context resolves to a host builtin, so host
capabilities are reachable from condition strings. -/
theorem condition_eval_host_semantics :
    (∀ (e : PyExpr) (ctx : List (String × PyVal)),
      (∀ n ∈ freeNames e, (ctx.lookup n).isSome = true) →
      evalPy ctx e = sandboxEvalPy ctx e) ∧
    evalPy (buildContext demoSensor "HEALTHY" 20 true) (.name "open")
        = some (.builtinV "open") :=
  ⟨fun e ctx h => evalPy_agrees_with_sandbox e ctx h, by decide⟩

/-- Claim C1, witness: the host evaluator and the sandboxed evaluator agree
on the concrete context-scoped condition `moisture < 30`. -/
theorem condition_eval_host_semantics_witness :
    evalPy (buildContext demoSensor "P" 20 true)
        (.cmp .lt (.name "moisture") (.intLit 30)) =
      sandboxEvalPy (buildContext demoSensor "P" 20 true)
        (.cmp .lt (.name "moisture") (.intLit 30)) :=
  condition_eval_host_semantics.1 _ _ (by decide)

/-- Claim C2, counterexample to the claim as stated: on an empty catalog
the returned dictionary is exactly `\x7baction, reason\x7d` — it carries the
built-in monitor default and the fixed neutral reason, but it has no
`score` key at all. -/
theorem decide_result_lacks_score :
    decide_action [] [] [] 100000 "P" demoSensor 20 true =
      [("action", "ACTION: MONITOR_QUIETLY"), ("reason", "Default state.")] ∧
    "score" ∉ (decide_action [] [] [] 100000 "P" demoSensor 20 true).map Prod.fst := by
  refine ⟨by decide, by decide⟩

/-- Claim C2, amended: `decide_action` always returns a well-formed result
whose keys are exactly `action` and `reason` (no `score` field), carrying
the action and reason of the decision; and when no rule matches — in
particular on an empty catalog — and the default action passes the budget
check, the action is the built-in monitor-quietly default with the fixed
neutral reason. -/
theorem decide_result_shape (store : List ((String × PyVal) × ℚ))
    (rules : List Rule) (tool_defs : List (String × ToolDef))
    (cost_limit : Int) (prediction : String) (sensor : List (String × PyVal))
    (cpu : Int) (lock : Bool) :
    ((decide_action store rules tool_defs cost_limit prediction sensor cpu lock).map
        Prod.fst = ["action", "reason"]) ∧
    decide_action store rules tool_defs cost_limit prediction sensor cpu lock =
      [("action", (decideCore store rules tool_defs cost_limit prediction sensor cpu lock).1),
       ("reason", (decideCore store rules tool_defs cost_limit prediction sensor cpu lock).2)] ∧
    ((∀ r ∈ rules, ruleMatches (buildContext sensor prediction cpu lock) r = false) →
      is_within_budget cost_limit (get_tool_cost tool_defs "ACTION: MONITOR_QUIETLY") = true →
      decideCore store rules tool_defs cost_limit prediction sensor cpu lock =
        ("ACTION: MONITOR_QUIETLY", "Default state.")) := by
  refine ⟨rfl, rfl, fun hnm hbud => ?_⟩
  have hsel : selectRule store rules (buildContext sensor prediction cpu lock)
      (sensor.lookup "field_id") = initState :=
    foldl_ruleStep_of_no_match store (buildContext sensor prediction cpu lock)
      (sensor.lookup "field_id") rules hnm initState
  show budgetCheck cost_limit tool_defs
      ((selectRule store rules (buildContext sensor prediction cpu lock)
          (sensor.lookup "field_id")).best_action,
       (selectRule store rules (buildContext sensor prediction cpu lock)
          (sensor.lookup "field_id")).selected_reason) =
    ("ACTION: MONITOR_QUIETLY", "Default state.")
  rw [hsel]
  simp [budgetCheck, initState, hbud]

/-- Claim C2, witness: the no-match branch of the shape theorem evaluated
on the empty catalog. -/
theorem decide_result_shape_witness :
    decideCore [] [] [] 100000 "P" demoSensor 20 true =
      ("ACTION: MONITOR_QUIETLY", "Default state.") :=
  (decide_result_shape [] [] [] 100000 "P" demoSensor 20 true).2.2
    (by simp) (by decide)

/-- Claim C3: during a maintenance pass a record is deleted if and only if,
after decay, its confidence is below the prune floor 0.2 and its total
interactions exceed the minimum 10; a record satisfying only one of the two
conditions survives the pass. -/
theorem maintenance_prune_iff {κ : Type} (memory : List (κ × HeurStats))
    (k : κ) (st : HeurStats) (hmem : (k, st) ∈ memory) :
    ((k, decayStats st) ∉ perform_self_optimization memory ↔
      (statConfidence (decayStats st) < 1/5 ∧
        10 < totalInteractions (decayStats st))) := by
  have hkey : pruneCond (decayStats st) = true ↔
      (statConfidence (decayStats st) < 1/5 ∧
        10 < totalInteractions (decayStats st)) := by
    unfold pruneCond
    simp [Bool.and_eq_true, decide_eq_true_eq, gt_iff_lt]
  unfold perform_self_optimization
  constructor
  · intro hnot
    by_contra hc
    rw [← hkey] at hc
    have hfalse : pruneCond (decayStats st) = false := by
      cases hpc : pruneCond (decayStats st) with
      | false => rfl
      | true => exact absurd hpc hc
    exact hnot (List.mem_filter.mpr
      ⟨List.mem_map.mpr ⟨(k, st), hmem, rfl⟩, by simp [hfalse]⟩)
  · intro hcond hmemres
    have h2 := (List.mem_filter.mp hmemres).2
    rw [hkey.mpr hcond] at h2
    simp at h2

/-- Claim C3, witness: scenario 3 of the design document — a record with 2
successes, 10 failures and confidence 0.19 is removed by the pass. -/
theorem maintenance_prune_iff_witness :
    ((("r1", "f1"), decayStats ⟨some (19/100), some 2, some 10⟩) ∉
      perform_self_optimization
        [((("r1", "f1") : String × String),
          (⟨some (19/100), some 2, some 10⟩ : HeurStats))]) :=
  (maintenance_prune_iff _ _ _ (by simp)).mpr
    (by constructor <;>
      norm_num [decayStats, statConfidence, decayFactor, totalInteractions])

/-- Claim C4: the budget check is true exactly when the proposed cost is at
most the configured limit; in particular it accepts a cost equal to the
limit, and as a total function of its two arguments it is pure and never
fails. -/
theorem is_within_budget_iff (cost_limit proposed_cost : Int) :
    (is_within_budget cost_limit proposed_cost = true ↔
      proposed_cost ≤ cost_limit) ∧
    is_within_budget cost_limit cost_limit = true := by
  constructor
  · unfold is_within_budget
    split_ifs with h
    · simp; omega
    · simp; omega
  · unfold is_within_budget
    simp

/-- Claim C4, witness: a cost below the limit passes the check. -/
theorem is_within_budget_iff_witness : is_within_budget 100000 8 = true :=
  ((is_within_budget_iff 100000 8).1).mpr (by decide)

/-- Claim C5: whenever the estimated cost of the selected action fails the
budget check, the decision is overridden to the monitor-quietly default
with the budget-constraint reason, superseding the reason of the matched
rule, and the returned result carries the overridden pair. -/
theorem budget_override_supersedes (store : List ((String × PyVal) × ℚ))
    (rules : List Rule) (tool_defs : List (String × ToolDef))
    (cost_limit : Int) (prediction : String) (sensor : List (String × PyVal))
    (cpu : Int) (lock : Bool)
    (hover : is_within_budget cost_limit (get_tool_cost tool_defs
        (selectRule store rules (buildContext sensor prediction cpu lock)
          (sensor.lookup "field_id")).best_action) = false) :
    decideCore store rules tool_defs cost_limit prediction sensor cpu lock =
      ("ACTION: MONITOR_QUIETLY", "Budget Constraint Override.") ∧
    decide_action store rules tool_defs cost_limit prediction sensor cpu lock =
      [("action", "ACTION: MONITOR_QUIETLY"),
       ("reason", "Budget Constraint Override.")] := by
  have h1 : decideCore store rules tool_defs cost_limit prediction sensor cpu lock =
      ("ACTION: MONITOR_QUIETLY", "Budget Constraint Override.") := by
    show budgetCheck cost_limit tool_defs
        ((selectRule store rules (buildContext sensor prediction cpu lock)
            (sensor.lookup "field_id")).best_action,
         (selectRule store rules (buildContext sensor prediction cpu lock)
            (sensor.lookup "field_id")).selected_reason) = _
    simp [budgetCheck, hover]
  refine ⟨h1, ?_⟩
  simp [decide_action, h1]

/-- Claim C5, witness: scenario 2 of the design document — the matched rule
proposes `PUMP_WATER` with cost 8 against limit 5 and is overridden. -/
theorem budget_override_supersedes_witness :
    decide_action [] [rulePump] [("PUMP_WATER", ⟨some 8⟩)] 5 "P" demoSensor 20 true =
      [("action", "ACTION: MONITOR_QUIETLY"),
       ("reason", "Budget Constraint Override.")] := by
  have hfid : demoSensor.lookup "field_id" = some (.strV "field_1") := by decide
  have he : evalPy (buildContext demoSensor "P" 20 true) rulePump.condition
      = some (.boolV true) := by decide
  have hconf : get_confidence [] "r1" (.strV "field_1") = 1 := by decide
  have hsel : (selectRule [] [rulePump] (buildContext demoSensor "P" 20 true)
      (demoSensor.lookup "field_id")).best_action = "ACTION: PUMP_WATER" := by
    rw [hfid]
    unfold selectRule
    rw [List.foldl_cons, List.foldl_nil,
      ruleStep_of_beat initState he (by decide)
        (by norm_num [initState, rulePump, hconf])]
    rfl
  have hover : is_within_budget 5 (get_tool_cost [("PUMP_WATER", ⟨some 8⟩)]
      (selectRule [] [rulePump] (buildContext demoSensor "P" 20 true)
        (demoSensor.lookup "field_id")).best_action) = false := by
    rw [hsel]; decide
  exact (budget_override_supersedes [] [rulePump] [("PUMP_WATER", ⟨some 8⟩)]
    5 "P" demoSensor 20 true hover).2

/-- Claim C6: when a later rule matches with a score equal to that of an
earlier matching rule, the later rule never displaces it — removing the
later tied rule from the catalog does not change the decision, so the rule
appearing first in catalog order is the one selected; and since the model
is a pure function, repeated calls with the same catalog, context and
confidence values return the same result. -/
theorem decide_tie_keeps_first (store : List ((String × PyVal) × ℚ))
    (tool_defs : List (String × ToolDef)) (cost_limit : Int)
    (prediction : String) (sensor : List (String × PyVal))
    (cpu : Int) (lock : Bool) (pre mid post : List Rule) (r1 r2 : Rule)
    (fid : PyVal)
    (hfid : sensor.lookup "field_id" = some fid)
    (h1 : ruleMatches (buildContext sensor prediction cpu lock) r1 = true)
    (h2 : ruleMatches (buildContext sensor prediction cpu lock) r2 = true)
    (heq : r2.priority * get_confidence store r2.id fid =
      r1.priority * get_confidence store r1.id fid)
    (hbeat : (List.foldl (ruleStep store (buildContext sensor prediction cpu lock)
        (some fid)) initState pre).highest_score <
      r1.priority * get_confidence store r1.id fid) :
    decide_action store (pre ++ r1 :: mid ++ r2 :: post) tool_defs cost_limit
        prediction sensor cpu lock =
      decide_action store (pre ++ r1 :: (mid ++ post)) tool_defs cost_limit
        prediction sensor cpu lock := by
  have hs : selectRule store (pre ++ r1 :: mid ++ r2 :: post)
        (buildContext sensor prediction cpu lock) (some fid) =
      selectRule store (pre ++ r1 :: (mid ++ post))
        (buildContext sensor prediction cpu lock) (some fid) := by
    unfold selectRule
    simp only [List.foldl_append, List.foldl_cons]
    obtain ⟨v, hv, htv⟩ := ruleMatches_elim h1
    have hs1 : (ruleStep store (buildContext sensor prediction cpu lock) (some fid)
        (List.foldl (ruleStep store (buildContext sensor prediction cpu lock)
          (some fid)) initState pre) r1).highest_score =
        r1.priority * get_confidence store r1.id fid := by
      rw [ruleStep_of_beat _ hv htv hbeat]
    have hmono := foldl_ruleStep_highest_mono store
      (buildContext sensor prediction cpu lock) (some fid) mid
      (ruleStep store (buildContext sensor prediction cpu lock) (some fid)
        (List.foldl (ruleStep store (buildContext sensor prediction cpu lock)
          (some fid)) initState pre) r1)
    rw [hs1] at hmono
    have hno : ¬ (List.foldl (ruleStep store (buildContext sensor prediction cpu lock)
          (some fid))
        (ruleStep store (buildContext sensor prediction cpu lock) (some fid)
          (List.foldl (ruleStep store (buildContext sensor prediction cpu lock)
            (some fid)) initState pre) r1) mid).highest_score <
        r2.priority * get_confidence store r2.id fid := by
      rw [heq]
      exact not_lt.mpr hmono
    rw [ruleStep_of_no_beat _ hno]
  simp only [decide_action, decideCore, hfid, hs]

/-- Claim C6, witness: two rules with the same condition and priority and
default confidence tie; the decision over both equals the decision over the
first alone. -/
theorem decide_tie_keeps_first_witness :
    decide_action [] [rulePump, ruleDrain] [] 100000 "P" demoSensor 20 true =
      decide_action [] [rulePump] [] 100000 "P" demoSensor 20 true :=
  decide_tie_keeps_first [] [] 100000 "P" demoSensor 20 true [] [] []
    rulePump ruleDrain (.strV "field_1") (by decide) (by decide) (by decide)
    (by with_unfolding_all decide) (by with_unfolding_all decide)

/-- Claim C7: a rule whose condition evaluation fails — or whose scoring
raises because the sensor data has no subject identifier — is skipped and
only that rule is skipped: the decision over the catalog equals the
decision over the catalog with the failing rules removed. The model is a
total function, so no rule-evaluation failure propagates to the caller. -/
theorem decide_skips_failing_rules (store : List ((String × PyVal) × ℚ))
    (rules : List Rule) (tool_defs : List (String × ToolDef))
    (cost_limit : Int) (prediction : String) (sensor : List (String × PyVal))
    (cpu : Int) (lock : Bool) :
    decide_action store rules tool_defs cost_limit prediction sensor cpu lock =
      decide_action store
        (rules.filter (fun r => !ruleEvalFails
          (buildContext sensor prediction cpu lock) (sensor.lookup "field_id") r))
        tool_defs cost_limit prediction sensor cpu lock := by
  simp only [decide_action, decideCore, selectRule]
  rw [foldl_ruleStep_filter_fails store (buildContext sensor prediction cpu lock)
    (sensor.lookup "field_id") rules initState]

/-- Claim C8, counterexample to the claim as stated: the conflict handler
of the autonomy loop writes the `last_action` field, which the claim
reserves to the decision engine. -/
theorem loop_conflict_writes_last_action :
    (handleConflictStatusUpdate ⟨"BOOTING", 0, "IDLE", 0, 0⟩).last_action =
      "CRITICAL_POLICY_OVERRIDE" ∧
    (handleConflictStatusUpdate ⟨"BOOTING", 0, "IDLE", 0, 0⟩).last_action ≠
      (⟨"BOOTING", 0, "IDLE", 0, 0⟩ : AgentStatus).last_action := by
  refine ⟨rfl, by decide⟩

/-- Claim C8, amended: `decide_action` writes only `last_action` and
`timestamp`, and the loop tick writes only `state` and `uptime`; but the
conflict handler invoked from the loop additionally writes `last_action`
(to the override marker) and the rewrite path writes the
self-modification counter, so `last_action` has two writers and the
claimed partition of writers fails. -/
theorem status_writer_fields (st : AgentStatus) (a : String) (now : ℚ)
    (u : Int) :
    (decideStatusUpdate a now st).state = st.state ∧
    (decideStatusUpdate a now st).uptime = st.uptime ∧
    (decideStatusUpdate a now st).self_modification_attempts =
      st.self_modification_attempts ∧
    (loopTickStatusUpdate u st).last_action = st.last_action ∧
    (loopTickStatusUpdate u st).timestamp = st.timestamp ∧
    (loopTickStatusUpdate u st).self_modification_attempts =
      st.self_modification_attempts ∧
    (handleConflictStatusUpdate st).last_action = "CRITICAL_POLICY_OVERRIDE" ∧
    (handleConflictStatusUpdate st).state = st.state ∧
    (handleConflictStatusUpdate st).uptime = st.uptime ∧
    (handleConflictStatusUpdate st).timestamp = st.timestamp ∧
    (codeRewriteStatusUpdate st).last_action = st.last_action ∧
    (codeRewriteStatusUpdate st).state = st.state ∧
    (codeRewriteStatusUpdate st).uptime = st.uptime ∧
    (codeRewriteStatusUpdate st).timestamp = st.timestamp :=
  ⟨rfl, rfl, rfl, rfl, rfl, rfl, rfl, rfl, rfl, rfl, rfl, rfl, rfl, rfl⟩

/-- Claim C9: the two conflict-resolution call sites write the safety lock
with opposite polarity — the conflict handler of the agent loop disengages
it while the conflict resolver of the core engine engages it — so the two
handlers are not equivalent with respect to the resulting lock state. -/
theorem conflict_lock_polarity (c : AgentConfig) :
    (handle_autonomy_conflict_lock c).safety_lock = false ∧
    (resolve_autonomy_conflict_lock c).safety_lock = true ∧
    handle_autonomy_conflict_lock c ≠ resolve_autonomy_conflict_lock c := by
  refine ⟨rfl, rfl, fun h => ?_⟩
  have hf := congrArg AgentConfig.safety_lock h
  simp [handle_autonomy_conflict_lock, resolve_autonomy_conflict_lock,
    set_safety_lock_status] at hf

/-- Claim C9, witness: the two handlers applied to the same engaged-lock
configuration produce different lock states. -/
theorem conflict_lock_polarity_witness :
    handle_autonomy_conflict_lock ⟨true⟩ ≠ resolve_autonomy_conflict_lock ⟨true⟩ :=
  (conflict_lock_polarity ⟨true⟩).2.2

/-- Claim C10: an action whose cleaned identifier is absent from the tool
definitions gets estimated cost 0, and with any non-negative budget limit
the budget check passes and the budget guard leaves the decision pair
unchanged. -/
theorem absent_tool_cost_zero (tool_defs : List (String × ToolDef))
    (a reason : String) (cost_limit : Int)
    (habs : tool_defs.lookup (pyReplace a "ACTION: " "") = none) :
    get_tool_cost tool_defs a = 0 ∧
    (0 ≤ cost_limit →
      is_within_budget cost_limit (get_tool_cost tool_defs a) = true ∧
      budgetCheck cost_limit tool_defs (a, reason) = (a, reason)) := by
  have hc : get_tool_cost tool_defs a = 0 := by
    simp only [get_tool_cost, habs]
  refine ⟨hc, fun hl => ?_⟩
  have hw : is_within_budget cost_limit 0 = true := by
    unfold is_within_budget
    split_ifs with h
    · omega
    · rfl
  constructor
  · rw [hc]; exact hw
  · simp [budgetCheck, hc, hw]

/-- Claim C10, witness: the built-in monitor default with no cost entry in
an empty tool table costs 0 and is not overridden under the default
limit. -/
theorem absent_tool_cost_zero_witness :
    get_tool_cost [] "ACTION: MONITOR_QUIETLY" = 0 ∧
    budgetCheck 100000 [] ("ACTION: MONITOR_QUIETLY", "Default state.") =
      ("ACTION: MONITOR_QUIETLY", "Default state.") := by
  have h := absent_tool_cost_zero [] "ACTION: MONITOR_QUIETLY" "Default state."
    100000 (by decide)
  exact ⟨h.1, (h.2 (by decide)).2⟩

end ZeraCorp
